import Mathlib

/-!
Shallow embedding of the Photometry.jl python benchmark scripts
(`src/benchmarks/apertures.py`, `src/benchmarks/circle/circle_apertures.py`,
`src/bench/num_apertures/num_apertures.py`, `src/bench/aperture_size/aperture_size.py`)
and proofs about the sweep harness: parameter-space construction and skip
policy, timed execution, aggregation of timing samples, result-table schema,
random-field seeding, and error propagation.

Durations and geometry parameters are modelled as rationals (the python
floats never leave the range where the modelled identities are exact), the
wall clock as an arbitrary function from call index to reading, and the
external `aperture_photometry` call as an opaque, possibly failing operation.
-/

namespace PhotometryBench

/-- The six photutils aperture classes imported and swept by the benchmarks. -/
inductive Shape
  | CircularAperture
  | CircularAnnulus
  | EllipticalAperture
  | EllipticalAnnulus
  | RectangularAperture
  | RectangularAnnulus
  deriving DecidableEq, Repr

/-- Python `A.__name__`, used for the `aperture` column of the combined sweep. -/
def Shape.name : Shape → String
  | .CircularAperture => "CircularAperture"
  | .CircularAnnulus => "CircularAnnulus"
  | .EllipticalAperture => "EllipticalAperture"
  | .EllipticalAnnulus => "EllipticalAnnulus"
  | .RectangularAperture => "RectangularAperture"
  | .RectangularAnnulus => "RectangularAnnulus"

/-- The evaluation methods swept by `benchmarks/apertures.py`. -/
inductive Method
  | exact
  | center
  | subpixel
  deriving DecidableEq, Repr

/-- The python string value of each method, as it appears in the `methods` list. -/
def Method.str : Method → String
  | .exact => "exact"
  | .center => "center"
  | .subpixel => "subpixel"

/-- One repetition loop of the timing harness: for i in range(reps) the code
reads `t0 = datetime.now()` (clock call 2*i), runs `aperture_photometry`,
reads `t1 = datetime.now()` (clock call 2*i+1) and appends
`(t1 - t0).total_seconds()`.  The clock is an arbitrary function from the
index of the `datetime.now()` call to its reading; nothing in the code
constrains it to be monotone. -/
def timedSamples (clock : ℕ → ℚ) (reps : ℕ) : List ℚ :=
  (List.range reps).map (fun i => clock (2 * i + 1) - clock (2 * i))

/-- The aggregation step of `aperture_size.py` and `num_apertures.py`:
`time = sum(ts) / 5`.  Note the divisor is the literal constant 5, not
`len(ts)`. -/
def aggregate (ts : List ℚ) : ℚ :=
  ts.sum / 5

namespace Apertures

/-- The `APS` list of `benchmarks/apertures.py` in declaration order. -/
def APS : List Shape :=
  [.CircularAperture, .CircularAnnulus, .EllipticalAperture,
   .EllipticalAnnulus, .RectangularAperture, .RectangularAnnulus]

/-- The `params` tuples, positionally matched with `APS` via `zip`. -/
def params : List (List ℚ) :=
  [[3], [3, 5], [3, 3, 0], [3, 5, 4, 0], [3, 5, 0], [3, 5, 4, 0]]

/-- The region counts swept (outermost axis of `itertools.product`). -/
def Ns : List ℕ := [1, 10, 50, 100]

/-- The evaluation methods swept (middle axis). -/
def methods : List Method := [.exact, .center, .subpixel]

/-- One parameter point of the combined sweep: `(N, method, (A, par))`. -/
abbrev Point := ℕ × Method × (Shape × List ℚ)

/-- The full parameter space, `list(product(Ns, methods, zip(APS, params)))`:
`itertools.product` iterates its last argument fastest, so the region count
is the outermost axis, then the method, then the shape. -/
def inputs : List Point :=
  Ns.flatMap (fun N => methods.flatMap (fun m => (APS.zip params).map (fun Ap => (N, m, Ap))))

/-- The `continue` guard of the sweep loop:
`method == "exact" and (A == RectangularAnnulus or A == RectangularAperture)`. -/
def skipB : Point → Bool
  | (_, method, A, _) =>
    decide ( method.str = "exact")
      && (decide (A = Shape.RectangularAnnulus) || decide (A = Shape.RectangularAperture))

/-- The parameter points that survive the `continue` guard, in loop order. -/
def retainedPoints : List Point :=
  inputs.filter (fun p => ! skipB p)

/-- The `method` column value: `m = method if method != "subpixel" else "subpixel-5"`. -/
def label (method : Method) : String :=
  if method.str ≠ "subpixel" then method.str else "subpixel-5"

/-- The keyword-argument dispatch:
`kwargs = \x7b\x7d if method != "subpixel" else \x7b"subpixels": 5\x7d`,
modelled as the optional `subpixels` value passed to `aperture_photometry`. -/
def subpixelsKwarg (method : Method) : Option ℕ :=
  if method.str ≠ "subpixel" then none else some 5

/-- One row of the combined sweep's result table:
`rows.append((N, A.__name__, m, time))`. -/
structure Row where
  N : ℕ
  aperture : String
  method : String
  time : ℚ
  deriving DecidableEq, Repr

/-- Build the row appended for a retained parameter point. -/
def mkRow (p : Point) (t : ℚ) : Row :=
  { N := p.1, aperture := p.2.2.1.name, method := label p.2.1, time := t }

/-- The rows accumulated by the sweep loop, with the measured duration of the
i-th retained point abstracted as `time i` (each retained iteration performs
one timed call; skipped iterations time nothing). -/
def sweepRows (time : ℕ → ℚ) : List Row :=
  retainedPoints.enum.map (fun p => mkRow p.2 (time p.1))

/-- The aperture positions `list(repeat((255, 255), N))` of the combined sweep. -/
def positions (N : ℕ) : List (ℕ × ℕ) :=
  List.replicate N (255, 255)

/-- The column names passed to `pd.DataFrame(rows, columns=[...])`. -/
def header : List String :=
  ["N", "aperture", "method", "time"]

/-- The sweep loop with the external `aperture_photometry` call modelled as a
possibly failing operation `op`.  A python exception inside the loop aborts
the whole script before `to_csv` runs, so the run's output is `Except`: an
error produces no table at all, success produces one entry per retained
point (row contents are tracked by the originating point). -/
def runSweepAux (op : Point → Except String Unit) : List Point → Except String (List Point)
  | [] => .ok []
  | q :: qs =>
    if skipB q then runSweepAux op qs
    else
      match op q with
      | .error e => .error e
      | .ok _ =>
        match runSweepAux op qs with
        | .error e => .error e
        | .ok rest => .ok (q :: rest)

/-- Run the whole combined sweep over its parameter space. -/
def runSweep (op : Point → Except String Unit) : Except String (List Point) :=
  runSweepAux op inputs

end Apertures

/-! Model of numpy's global pseudo-random state, as used by the four scripts.
The state is threaded explicitly; `np.random.seed(c)` resets it to `c`, and
the field is the stream of raw generator draws laid out on the 512 times 512
grid.  The Gaussian transform and the `+ 10` offset applied by
`np.random.randn(512, 512) + 10` are deterministic functions of the raw
draws, so two fields are bit-identical exactly when their draw streams
agree; the model therefore keeps the raw draws as the field values.  The
concrete generator is a 64-bit linear congruential step standing in for the
Mersenne Twister: any deterministic state-passing generator exhibits the
same seeding behaviour, which is all the seeding claims depend on. -/

/-- One step of the modelled 64-bit pseudo-random generator. -/
def lcg (s : ℕ) : ℕ :=
  (6364136223846793005 * s + 1442695040888963407) % 2 ^ 64

/-- The k-th draw produced from generator state `s`. -/
def draws (s : ℕ) : ℕ → ℕ
  | 0 => lcg s
  | k + 1 => lcg (draws s k)

/-- The 512 times 512 synthetic field generated from state `s`, as the grid of
raw draws in row-major order. -/
def field (s : ℕ) : ℕ → ℕ → ℕ :=
  fun i j => draws s (512 * i + j)

/-- The fixed seed constant `11256` passed to `np.random.seed` by
`aperture_size.py` and `num_apertures.py`. -/
def seedConst : ℕ := 11256

namespace Apertures

/-- The field of `benchmarks/apertures.py`: `data = np.random.randn(512, 512) + 10`
with no preceding `np.random.seed`, so the draws start from whatever ambient
generator state the process happens to be in. -/
def fieldOf (ambient : ℕ) : ℕ → ℕ → ℕ :=
  field ambient

end Apertures

namespace CircleApertures

/-- The region counts swept by `benchmarks/circle/circle_apertures.py`. -/
def Ns : List ℕ := [1, 10, 50, 100, 200, 400, 500, 1000, 2000]

/-- The aperture positions `list(repeat((255, 255), N))`. -/
def positions (N : ℕ) : List (ℕ × ℕ) :=
  List.replicate N (255, 255)

/-- The field of `circle_apertures.py`: generated with no preceding seed call. -/
def fieldOf (ambient : ℕ) : ℕ → ℕ → ℕ :=
  field ambient

/-- The rows of the coarse count sweep: each iteration times a single call
(`t0 = now(); aperture_photometry(...); t1 = now()`), so iteration i uses
global clock calls 2*i and 2*i+1 and appends `(N, t1 - t0)`. -/
def rows (clock : ℕ → ℚ) : List (ℕ × ℚ) :=
  Ns.enum.map (fun p => (p.2, clock (2 * p.1 + 1) - clock (2 * p.1)))

/-- The column names of `python_circle_apertures.csv`. -/
def header : List String := ["N", "time"]

end CircleApertures

namespace NumApertures

/-- The region counts swept by `bench/num_apertures/num_apertures.py`. -/
def Ns : List ℕ := [1, 10, 50, 100, 200, 400, 500, 1000, 2000]

/-- The field of `num_apertures.py`: `np.random.seed(11256)` precedes the
draw, so the field never depends on the ambient generator state. -/
def fieldOf (_ambient : ℕ) : ℕ → ℕ → ℕ :=
  field seedConst

/-- The rows of one sweep of `num_apertures.py`: iteration i runs the inner
repetition loop 5 times (clock calls 10*i .. 10*i+9) and appends
`(N, sum(ts) / 5)`. -/
def rows (clock : ℕ → ℚ) : List (ℕ × ℚ) :=
  Ns.enum.map (fun p => (p.2, aggregate (timedSamples (fun k => clock (10 * p.1 + k)) 5)))

/-- The column names of both `python_num_apertures*.csv` tables. -/
def header : List String := ["N", "time"]

end NumApertures

namespace ApertureSize

/-- The radii swept by `bench/aperture_size/aperture_size.py`:
`trange(1, 201, 5)`, i.e. 1, 6, ..., 196 — forty values. -/
def rs : List ℕ := List.range' 1 40 5

/-- The field of `aperture_size.py`: seeded with 11256 before drawing. -/
def fieldOf (_ambient : ℕ) : ℕ → ℕ → ℕ :=
  field seedConst

/-- The rows of one sweep of `aperture_size.py`: iteration i runs the inner
repetition loop 5 times (clock calls 10*i .. 10*i+9) and appends
`(r, sum(ts) / 5)`. -/
def rows (clock : ℕ → ℚ) : List (ℕ × ℚ) :=
  rs.enum.map (fun p => (p.2, aggregate (timedSamples (fun k => clock (10 * p.1 + k)) 5)))

/-- The column names of both `python_aperture_size*.csv` tables. -/
def header : List String := ["r", "time"]

end ApertureSize

/-! Event-trace model of one parameter point's processing, for the claim that
each measured interval contains exactly one external call and nothing else. -/

/-- The observable events of one sweep iteration. -/
inductive Event
  | constructRegions
  | clockRead
  | externalCall
  | appendRow
  deriving DecidableEq, BEq, Repr

/-- One timed repetition: read the clock, call `aperture_photometry`, read
the clock again. -/
def timedRep : List Event :=
  [Event.clockRead, Event.externalCall, Event.clockRead]

/-- The event trace of one parameter point: the aperture object is built
first, then `reps` timed repetitions run, then the result row is appended.
`reps` is 5 in `aperture_size.py`/`num_apertures.py` and 1 in
`apertures.py`/`circle_apertures.py`. -/
def pointTrace (reps : ℕ) : List Event :=
  Event.constructRegions :: ((List.range reps).flatMap (fun _ => timedRep)) ++ [Event.appendRow]

/-- The odd-indexed entries of a list of segments. -/
def oddSegs (l : List (List Event)) : List (List Event) :=
  (l.enum.filter (fun p => p.1 % 2 = 1)).map (fun p => p.2)

/-- The events strictly inside each measured interval: splitting the trace at
clock reads, the segment between the (2i)-th read (the i-th `t0`) and the
(2i+1)-th read (the i-th `t1`) is the (2i+1)-th segment, i.e. the
odd-indexed ones. -/
def measuredGaps (tr : List Event) : List (List Event) :=
  oddSegs (tr.splitOn Event.clockRead)

/-- The events that happen before the first clock read of the point. -/
def beforeTiming (tr : List Event) : List Event :=
  tr.takeWhile (fun e => ! decide (e = Event.clockRead))

/-! Concrete clock traces used to probe the `datetime.now`-based timing. -/

/-- A wall-clock trace whose first reading is 1 s and later readings 0 s:
the system clock was set back between the two reads of the first
repetition.  `datetime.now` tracks the adjustable system clock, so such a
trace is a possible execution. -/
def clockBack : ℕ → ℚ :=
  fun n => if n = 0 then 1 else 0

/-- A wall-clock trace for a single repetition in which the system clock is
stepped back from 10 s to 9 s between `t0` and `t1`. -/
def adjustedClock : ℕ → ℚ :=
  fun n => if n = 0 then 10 else 9

/-- A trivially monotone clock, used to instantiate monotonicity hypotheses. -/
def natClock : ℕ → ℚ :=
  fun n => (n : ℚ)

/-- The expected `(N, aperture, method)` columns of the combined sweep's 64
rows, written out in the natural nested iteration order: region count
outermost, then method, then shape, with the two rectangular shapes absent
from every `exact` block and the subpixel method labelled `subpixel-5`. -/
def Apertures.expectedSweepMeta : List (ℕ × String × String) :=
    [(1, "CircularAperture", "exact"), (1, "CircularAnnulus", "exact"),
     (1, "EllipticalAperture", "exact"), (1, "EllipticalAnnulus", "exact"),
     (1, "CircularAperture", "center"), (1, "CircularAnnulus", "center"),
     (1, "EllipticalAperture", "center"), (1, "EllipticalAnnulus", "center"),
     (1, "RectangularAperture", "center"), (1, "RectangularAnnulus", "center"),
     (1, "CircularAperture", "subpixel-5"), (1, "CircularAnnulus", "subpixel-5"),
     (1, "EllipticalAperture", "subpixel-5"), (1, "EllipticalAnnulus", "subpixel-5"),
     (1, "RectangularAperture", "subpixel-5"), (1, "RectangularAnnulus", "subpixel-5"),
     (10, "CircularAperture", "exact"), (10, "CircularAnnulus", "exact"),
     (10, "EllipticalAperture", "exact"), (10, "EllipticalAnnulus", "exact"),
     (10, "CircularAperture", "center"), (10, "CircularAnnulus", "center"),
     (10, "EllipticalAperture", "center"), (10, "EllipticalAnnulus", "center"),
     (10, "RectangularAperture", "center"), (10, "RectangularAnnulus", "center"),
     (10, "CircularAperture", "subpixel-5"), (10, "CircularAnnulus", "subpixel-5"),
     (10, "EllipticalAperture", "subpixel-5"), (10, "EllipticalAnnulus", "subpixel-5"),
     (10, "RectangularAperture", "subpixel-5"), (10, "RectangularAnnulus", "subpixel-5"),
     (50, "CircularAperture", "exact"), (50, "CircularAnnulus", "exact"),
     (50, "EllipticalAperture", "exact"), (50, "EllipticalAnnulus", "exact"),
     (50, "CircularAperture", "center"), (50, "CircularAnnulus", "center"),
     (50, "EllipticalAperture", "center"), (50, "EllipticalAnnulus", "center"),
     (50, "RectangularAperture", "center"), (50, "RectangularAnnulus", "center"),
     (50, "CircularAperture", "subpixel-5"), (50, "CircularAnnulus", "subpixel-5"),
     (50, "EllipticalAperture", "subpixel-5"), (50, "EllipticalAnnulus", "subpixel-5"),
     (50, "RectangularAperture", "subpixel-5"), (50, "RectangularAnnulus", "subpixel-5"),
     (100, "CircularAperture", "exact"), (100, "CircularAnnulus", "exact"),
     (100, "EllipticalAperture", "exact"), (100, "EllipticalAnnulus", "exact"),
     (100, "CircularAperture", "center"), (100, "CircularAnnulus", "center"),
     (100, "EllipticalAperture", "center"), (100, "EllipticalAnnulus", "center"),
     (100, "RectangularAperture", "center"), (100, "RectangularAnnulus", "center"),
     (100, "CircularAperture", "subpixel-5"), (100, "CircularAnnulus", "subpixel-5"),
     (100, "EllipticalAperture", "subpixel-5"), (100, "EllipticalAnnulus", "subpixel-5"),
     (100, "RectangularAperture", "subpixel-5"), (100, "RectangularAnnulus", "subpixel-5")]

/-! Helper lemmas shared by the claim theorems. -/

/-- The sweep produces one row per retained parameter point. -/
theorem Apertures.sweepRows_length (time : ℕ → ℚ) :
    (Apertures.sweepRows time).length = Apertures.retainedPoints.length := by
  simp [Apertures.sweepRows]

/-- The non-time columns of the sweep rows are the retained points' data, in
order, independent of the measured durations. -/
theorem Apertures.sweepRows_map_meta (time : ℕ → ℚ) :
    (Apertures.sweepRows time).map (fun r => (r.N, r.aperture, r.method))
      = Apertures.retainedPoints.map (fun p => (p.1, p.2.2.1.name, Apertures.label p.2.1)) := by
  simp only [Apertures.sweepRows, List.map_map]
  rw [show ((fun r => (r.N, r.aperture, r.method)) ∘
        fun p : ℕ × Apertures.Point => Apertures.mkRow p.2 (time p.1))
      = ((fun p : Apertures.Point => (p.1, p.2.2.1.name, Apertures.label p.2.1)) ∘ Prod.snd) from rfl]
  rw [← List.map_map, List.enum_map_snd]

/-- The size-sweep rows carry the swept radii, in order, independent of the clock. -/
theorem apertureSize_rows_map_fst (clock : ℕ → ℚ) :
    (ApertureSize.rows clock).map (fun p => p.1) = ApertureSize.rs := by
  simp only [ApertureSize.rows, List.map_map]
  rw [show ((fun p : ℕ × ℚ => p.1) ∘
        fun p : ℕ × ℕ => ((p.2 : ℕ),
          aggregate (timedSamples (fun k => clock (10 * p.1 + k)) 5)))
      = Prod.snd from rfl]
  rw [List.enum_map_snd]

/-- The count-sweep rows of `num_apertures.py` carry the swept counts, in order. -/
theorem numApertures_rows_map_fst (clock : ℕ → ℚ) :
    (NumApertures.rows clock).map (fun p => p.1) = NumApertures.Ns := by
  simp only [NumApertures.rows, List.map_map]
  rw [show ((fun p : ℕ × ℚ => p.1) ∘
        fun p : ℕ × ℕ => ((p.2 : ℕ),
          aggregate (timedSamples (fun k => clock (10 * p.1 + k)) 5)))
      = Prod.snd from rfl]
  rw [List.enum_map_snd]

/-- The count-sweep rows of `circle_apertures.py` carry the swept counts, in order. -/
theorem circleApertures_rows_map_fst (clock : ℕ → ℚ) :
    (CircleApertures.rows clock).map (fun p => p.1) = CircleApertures.Ns := by
  simp only [CircleApertures.rows, List.map_map]
  rw [show ((fun p : ℕ × ℚ => p.1) ∘
        fun p : ℕ × ℕ => ((p.2 : ℕ), clock (2 * p.1 + 1) - clock (2 * p.1)))
      = Prod.snd from rfl]
  rw [List.enum_map_snd]

/-- If the external operation succeeds on every retained point of `pre` and
fails on the retained point `p`, the whole loop over `pre ++ p :: post`
evaluates to that error, whatever `post` holds. -/
theorem Apertures.runSweepAux_error_of_prefix (op : Apertures.Point → Except String Unit)
    (p : Apertures.Point) (e : String) (post : List Apertures.Point) :
    ∀ pre : List Apertures.Point,
      (∀ q ∈ pre, Apertures.skipB q = false → op q = .ok ()) →
      Apertures.skipB p = false → op p = .error e →
      Apertures.runSweepAux op (pre ++ p :: post) = .error e := by
  intro pre
  induction pre with
  | nil =>
    intro _ hp hop
    simp [Apertures.runSweepAux, hp, hop]
  | cons q qs ih =>
    intro hpre hp hop
    have htail : ∀ r ∈ qs, Apertures.skipB r = false → op r = .ok () :=
      fun r hr => hpre r (List.mem_cons_of_mem _ hr)
    by_cases hq : Apertures.skipB q
    · simpa [Apertures.runSweepAux, hq] using ih htail hp hop
    · have hok : op q = .ok () := hpre q (List.mem_cons_self _ _) (by simpa using hq)
      simp [Apertures.runSweepAux, hq, hok, ih htail hp hop]

/-- The identity clock is monotone. -/
theorem natClock_monotone : Monotone natClock := by
  intro a b hab
  simpa [natClock] using (Nat.cast_le.mpr hab : (a : ℚ) ≤ b)

/-! Claim theorems. -/

/-- C1: the combined sweep enumerates the 72-point cross product of the region
counts [1, 10, 50, 100], the three evaluation methods and the six shape
kinds; a point is dropped, silently, exactly when the method is `exact` and
the shape is `RectangularAperture` or `RectangularAnnulus`; each of the 64
other points yields exactly one result row, and the rows appear in the
natural nested iteration order of the declared axes (region count outermost,
then method, then shape). -/
theorem apertures_sweep_skip_policy (time : ℕ → ℚ) :
    (∀ p ∈ Apertures.inputs, (Apertures.skipB p = true ↔
        (p.2.1 = Method.exact ∧
          (p.2.2.1 = Shape.RectangularAperture ∨ p.2.2.1 = Shape.RectangularAnnulus))))
    ∧ Apertures.inputs.length = 72
    ∧ Apertures.inputs.Nodup
    ∧ Apertures.retainedPoints = Apertures.inputs.filter (fun p => ! Apertures.skipB p)
    ∧ List.Sublist Apertures.retainedPoints Apertures.inputs
    ∧ (Apertures.sweepRows time).length = 64
    ∧ (Apertures.sweepRows time).map (fun r => (r.N, r.aperture, r.method))
        = Apertures.expectedSweepMeta := by
  refine ⟨by decide, by decide, by decide, rfl, List.filter_sublist _, ?_, ?_⟩
  · rw [Apertures.sweepRows_length]
    decide
  · rw [Apertures.sweepRows_map_meta]
    decide

/-- C1 witness: the point (1, exact, rectangular aperture) of the cross
product is indeed skipped, by the instantiated skip characterisation. -/
theorem apertures_sweep_skip_policy_witness :
    Apertures.skipB (1, Method.exact, (Shape.RectangularAperture, [3, 5, 0])) = true ↔
      ((1, Method.exact, (Shape.RectangularAperture, ([3, 5, 0] : List ℚ))).2.1 = Method.exact ∧
        ((1, Method.exact, (Shape.RectangularAperture, ([3, 5, 0] : List ℚ))).2.2.1
            = Shape.RectangularAperture ∨
          (1, Method.exact, (Shape.RectangularAperture, ([3, 5, 0] : List ℚ))).2.2.1
            = Shape.RectangularAnnulus)) :=
  (apertures_sweep_skip_policy (fun _ => 0)).1
    (1, Method.exact, (Shape.RectangularAperture, [3, 5, 0])) (by decide)

/-- C2 counterexample: the aggregation step is `sum(ts) / 5` with the literal
divisor 5, so applied to the single-sample sequence [1] it returns 1/5, not
the sample 1 itself — the claimed arithmetic-mean contract fails on
sequences whose length is not 5. -/
theorem aggregate_single_sample_not_identity :
    aggregate [(1 : ℚ)] = 1 / 5 ∧ aggregate [(1 : ℚ)] ≠ 1 := by
  constructor <;> norm_num [aggregate]

/-- C2 (amended): the aggregation step divides the sample sum by the constant
repetition count 5; on the length-5 sequences the executor actually
produces, this is the arithmetic mean — in particular [1, 2, 3, 4, 5] maps
to 3 — while a single-sample sequence [x] maps to x / 5, not x. -/
theorem aggregate_mean_of_five (ts : List ℚ) (h : ts.length = 5) :
    aggregate ts = ts.sum / ts.length
    ∧ aggregate [(1 : ℚ), 2, 3, 4, 5] = 3
    ∧ (∀ x : ℚ, aggregate [x] = x / 5) := by
  refine ⟨?_, by norm_num [aggregate], fun x => by simp [aggregate]⟩
  rw [aggregate, h]
  norm_num

/-- C2 witness: the amended statement applied to the concrete sample sequence
[1, 2, 3, 4, 5]. -/
theorem aggregate_mean_of_five_witness :
    aggregate [(1 : ℚ), 2, 3, 4, 5]
      = [(1 : ℚ), 2, 3, 4, 5].sum / ([(1 : ℚ), 2, 3, 4, 5].length : ℚ) :=
  (aggregate_mean_of_five [1, 2, 3, 4, 5] (by decide)).1

/-- C3 counterexample: the samples are differences of `datetime.now` readings
and nothing in the code constrains that wall clock, so on an execution whose
clock is stepped back by one second during the first repetition the executor
returns a negative sample — the claimed unconditional non-negativity fails. -/
theorem timedSamples_negative_without_monotonicity :
    timedSamples clockBack 5 = [-1, 0, 0, 0, 0]
    ∧ ¬ (∀ x ∈ timedSamples clockBack 5, 0 ≤ x) := by
  have h : timedSamples clockBack 5 = [-1, 0, 0, 0, 0] := by
    norm_num [timedSamples, clockBack, List.range_succ]
  refine ⟨h, ?_⟩
  rw [h]
  intro hall
  have h1 := hall (-1) (by simp)
  linarith

/-- C3 (amended): the timed executor performs a fixed number of repetitions of
the external call — 5 in the `bench/` sweeps, 1 in the coarse `benchmarks/`
sweeps — and returns one sample per repetition, the i-th sample being the
difference of the i-th repetition's two clock readings (execution order);
the samples are all non-negative whenever the clock readings are
non-decreasing, which `datetime.now` does not guarantee. -/
theorem timedSamples_counts_and_order (clock : ℕ → ℚ) (reps : ℕ) (hm : Monotone clock) :
    (timedSamples clock 5).length = 5
    ∧ (timedSamples clock 1).length = 1
    ∧ (timedSamples clock reps).length = reps
    ∧ (∀ i (h : i < reps),
        (timedSamples clock reps).get ⟨i, by simpa [timedSamples] using h⟩
          = clock (2 * i + 1) - clock (2 * i))
    ∧ (∀ x ∈ timedSamples clock reps, 0 ≤ x) := by
  refine ⟨by simp [timedSamples], by simp [timedSamples], by simp [timedSamples],
    fun i h => by simp [timedSamples], ?_⟩
  intro x hx
  simp only [timedSamples, List.mem_map, List.mem_range] at hx
  obtain ⟨i, -, rfl⟩ := hx
  have hstep : clock (2 * i) ≤ clock (2 * i + 1) := hm (Nat.le_succ _)
  linarith

/-- C3 witness: the amended statement applied to the monotone identity clock
with 5 repetitions. -/
theorem timedSamples_counts_and_order_witness :
    (timedSamples natClock 5).length = 5
    ∧ (timedSamples natClock 1).length = 1
    ∧ (timedSamples natClock 5).length = 5
    ∧ (∀ i (h : i < 5),
        (timedSamples natClock 5).get ⟨i, by simpa [timedSamples] using h⟩
          = natClock (2 * i + 1) - natClock (2 * i))
    ∧ (∀ x ∈ timedSamples natClock 5, 0 ≤ x) :=
  timedSamples_counts_and_order natClock 5 natClock_monotone

/-- C4: each duration is `(t1 - t0).total_seconds()` for two consecutive
`datetime.now()` readings; `datetime.now` tracks the adjustable system wall
clock, not a monotonic source, so on an execution where the clock is stepped
back from 10 s to 9 s between the two readings the recorded sample is −1 s —
the code does not guarantee non-negative samples, contradicting the claim's
monotonic-source guarantee.  The modelled stepped-back clock trace is itself
not monotone. -/
theorem wall_clock_step_back_negative_sample :
    timedSamples adjustedClock 1 = [-1]
    ∧ ¬ Monotone adjustedClock := by
  constructor
  · norm_num [timedSamples, adjustedClock, List.range_succ]
  · intro hm
    have h := hm (Nat.zero_le 1)
    norm_num [adjustedClock] at h

/-- C5: each benchmark variant writes one comma-delimited table whose header
names the columns exactly — \x7br, time\x7d for the size sweeps, \x7bN, time\x7d for the
count sweeps, \x7bN, aperture, method, time\x7d for the combined sweep — with one
data row per retained parameter point, in sweep order (the non-time cells of
the rows are exactly the swept values, in order, for every clock), and no
further columns (`index=False`; the row arities match the header arities). -/
theorem result_table_schemas (clock time : ℕ → ℚ) :
    ApertureSize.header = ["r", "time"]
    ∧ NumApertures.header = ["N", "time"]
    ∧ CircleApertures.header = ["N", "time"]
    ∧ Apertures.header = ["N", "aperture", "method", "time"]
    ∧ String.intercalate "," ApertureSize.header = "r,time"
    ∧ String.intercalate "," NumApertures.header = "N,time"
    ∧ String.intercalate "," Apertures.header = "N,aperture,method,time"
    ∧ (ApertureSize.rows clock).map (fun p => p.1) = ApertureSize.rs
    ∧ ApertureSize.rs
        = [1, 6, 11, 16, 21, 26, 31, 36, 41, 46, 51, 56, 61, 66, 71, 76, 81, 86, 91, 96,
           101, 106, 111, 116, 121, 126, 131, 136, 141, 146, 151, 156, 161, 166, 171, 176,
           181, 186, 191, 196]
    ∧ (NumApertures.rows clock).map (fun p => p.1)
        = [1, 10, 50, 100, 200, 400, 500, 1000, 2000]
    ∧ (CircleApertures.rows clock).map (fun p => p.1)
        = [1, 10, 50, 100, 200, 400, 500, 1000, 2000]
    ∧ (Apertures.sweepRows time).length = Apertures.retainedPoints.length
    ∧ (Apertures.sweepRows time).map (fun r => (r.N, r.aperture, r.method))
        = Apertures.retainedPoints.map (fun p => (p.1, p.2.2.1.name, Apertures.label p.2.1)) := by
  refine ⟨rfl, rfl, rfl, rfl, rfl, rfl, rfl, apertureSize_rows_map_fst clock, by decide,
    ?_, ?_, Apertures.sweepRows_length time, Apertures.sweepRows_map_meta time⟩
  · rw [numApertures_rows_map_fst clock]
    decide
  · rw [circleApertures_rows_map_fst clock]
    decide

/-- C6 counterexample: neither `benchmarks/apertures.py` nor
`benchmarks/circle/circle_apertures.py` seeds the generator before drawing
the field, so two runs of those variants starting from different ambient
generator states produce different fields — re-running is not bit-identical,
refuting the claim for those variants. -/
theorem unseeded_field_differs_across_runs :
    Apertures.fieldOf 0 ≠ Apertures.fieldOf 1
    ∧ CircleApertures.fieldOf 0 ≠ CircleApertures.fieldOf 1 := by
  constructor <;>
  · intro h
    have h0 := congrFun (congrFun h 0) 0
    revert h0
    decide

/-- C6 (amended): only the `bench/` variants (`aperture_size.py`,
`num_apertures.py`) seed the generator, with the fixed constant 11256, and
for them two runs produce bit-identical fields whatever generator state each
run starts from; the `benchmarks/` variants draw from the unseeded ambient
state, so their fields coincide only when the ambient states do. -/
theorem seeded_fields_reproducible (a b : ℕ) :
    ApertureSize.fieldOf a = ApertureSize.fieldOf b
    ∧ NumApertures.fieldOf a = NumApertures.fieldOf b
    ∧ ApertureSize.fieldOf a = field seedConst
    ∧ NumApertures.fieldOf a = field seedConst
    ∧ Apertures.fieldOf a = field a
    ∧ CircleApertures.fieldOf a = field a :=
  ⟨rfl, rfl, rfl, rfl, rfl, rfl⟩

/-- C7: in the event trace of one parameter point — for both the
5-repetition `bench/` loops and the single-repetition `benchmarks/` loops —
the segment of the trace lying strictly between the i-th repetition's two
clock reads is exactly one external `aperture_photometry` call, and the only
event before the first clock read is the region-object construction. -/
theorem timed_frame_contains_only_external_call :
    measuredGaps (pointTrace 5) = List.replicate 5 [Event.externalCall]
    ∧ measuredGaps (pointTrace 1) = [[Event.externalCall]]
    ∧ beforeTiming (pointTrace 5) = [Event.constructRegions]
    ∧ beforeTiming (pointTrace 1) = [Event.constructRegions]
    ∧ (pointTrace 1).splitOn Event.clockRead
        = [[Event.constructRegions], [Event.externalCall], [Event.appendRow]] := by
  decide

/-- C8: if the external operation succeeds on every retained parameter point
before `p` and raises at `p`, the sweep's result is exactly that error: no
result table is produced, and the outcome is fixed before any point after
`p` is reached — the conclusion holds for every behaviour of the operation
on `post`, so later points are never processed and there is no retry or
partial-result recovery. -/
theorem sweep_error_propagation (op : Apertures.Point → Except String Unit)
    (pre post : List Apertures.Point) (p : Apertures.Point) (e : String)
    (hsplit : Apertures.inputs = pre ++ p :: post)
    (hpre : ∀ q ∈ pre, Apertures.skipB q = false → op q = .ok ())
    (hp : Apertures.skipB p = false) (hop : op p = .error e) :
    Apertures.runSweep op = .error e := by
  rw [Apertures.runSweep, hsplit]
  exact Apertures.runSweepAux_error_of_prefix op p e post pre hpre hp hop

/-- C8 witness: an operation that raises on the very first parameter point
makes the whole combined sweep evaluate to that error. -/
theorem sweep_error_propagation_witness :
    Apertures.runSweep (fun _ => .error "photutils failure") = .error "photutils failure" :=
  sweep_error_propagation (fun _ => .error "photutils failure")
    [] Apertures.inputs.tail (1, Method.exact, (Shape.CircularAperture, [3]))
    "photutils failure" rfl (fun q hq => absurd hq (List.not_mem_nil q)) (by decide) rfl

/-- C9: the combined sweep records the method column as the method name
except that `subpixel` is recorded as `subpixel-5`, and the `subpixels=5`
keyword is passed to the external operation exactly for the subpixel
method. -/
theorem method_label_and_kwargs (t : ℚ) :
    Apertures.methods.map Apertures.label = ["exact", "center", "subpixel-5"]
    ∧ Apertures.methods.map Apertures.subpixelsKwarg = [none, none, some 5]
    ∧ (∀ p : Apertures.Point, (Apertures.mkRow p t).method = Apertures.label p.2.1)
    ∧ (∀ m : Method, (Apertures.subpixelsKwarg m = some 5 ↔ m = Method.subpixel))
    ∧ (∀ m : Method, (Apertures.label m = m.str ↔ m ≠ Method.subpixel)) := by
  refine ⟨by decide, by decide, fun p => rfl, fun m => ?_, fun m => ?_⟩ <;>
    cases m <;> simp [Apertures.subpixelsKwarg, Apertures.label, Method.str]

/-- C10: in the combined sweep and the coarse count sweep, all N aperture
positions of every parameter point are the one fixed pixel (255, 255). -/
theorem positions_all_fixed_point (N : ℕ) :
    (Apertures.positions N).length = N
    ∧ (CircleApertures.positions N).length = N
    ∧ (∀ p ∈ Apertures.positions N, p = (255, 255))
    ∧ (∀ p ∈ CircleApertures.positions N, p = (255, 255)) := by
  refine ⟨List.length_replicate _ _, List.length_replicate _ _, ?_, ?_⟩ <;>
    exact fun p hp => List.eq_of_mem_replicate hp

/-- C10 witness: the three positions of the N = 3 point all equal (255, 255). -/
theorem positions_all_fixed_point_witness :
    (Apertures.positions 3).length = 3 ∧ ((255, 255) : ℕ × ℕ) = (255, 255) :=
  ⟨(positions_all_fixed_point 3).1,
    (positions_all_fixed_point 3).2.2.1 (255, 255) (by decide)⟩

end PhotometryBench
